import Mathlib

/-!
Shallow embedding of the STF bursary-portal backend (student/admin service
layer) and proofs about its application-lifecycle engine.

Sources embedded here:
* src/unnamed/part_010  — status enum, VALID_STATUS_TRANSITIONS,
  isValidStatusTransition, ACTIVE_APPLICATION_STATUSES
* src/unnamed/part_003  — AdminService: updateApplicationStatus, bulkUpdate,
  application periods, scoreApplication
* src/src/services/student.service.ts — StudentService: profile management,
  completeness, eligibility, drafts, submission
* src/unnamed/part_006  — zod request schemas (updateApplicationStatusSchema,
  scoreApplicationSchema)

Database reads become explicit parameters (the value the query would return);
prisma transactions become single pure state-transformers, so a transaction's
atomicity is represented by the operation returning its whole effect as one
value.  Fallible service methods return Except.  JavaScript truthiness checks
on numbers/strings are translated explicitly (0 and the empty string are
falsy).
-/

namespace STF

/-- ApplicationStatus enum (prisma schema / part_010). -/
inductive AppStatus
  | DRAFT
  | PENDING
  | UNDER_REVIEW
  | APPROVED
  | REJECTED
  | DISBURSED
deriving DecidableEq, Repr, Fintype

/-- ProfileDocumentType enum (prisma schema; values listed in part_006). -/
inductive ProfileDocType
  | NATIONAL_ID
  | PASSPORT
  | KCSE_CERT
  | ADMISSION_LETTER
  | STUDENT_ID
  | TRANSCRIPT
deriving DecidableEq, Repr

/-- ApplicationDocumentType enum (prisma schema; values listed in part_006). -/
inductive AppDocType
  | FEE_STRUCTURE
  | BALANCE_STATEMENT
  | SUPPORT_LETTER
  | OTHER_EVIDENCE
deriving DecidableEq, Repr

/-- Service-level failures.  The repository throws Error with a message; each
constructor here corresponds to one distinct throw site / error kind. -/
inductive ServiceError
  /-- prisma lookup returned null ("... not found"). -/
  | notFound
  /-- "Invalid status transition from X to Y" (part_003 line 221). -/
  | invalidTransition (src tgt : AppStatus)
  /-- "Disbursement amount is required for DISBURSED status" (part_003 line 235). -/
  | missingDisbursedAmount
  /-- "Please upload the current fee structure document before submitting"
      (student.service.ts line 874). -/
  | missingFeeDocument
  /-- "Only draft applications can be updated/submitted". -/
  | notDraft
  /-- request rejected by the zod validation middleware (HTTP 400). -/
  | schemaValidation
  /-- "Profile already exists". -/
  | alreadyExists
  /-- "Cannot delete document linked to active applications". -/
  | documentLinked
  /-- "Cannot delete an active application period". -/
  | periodActive
  /-- eligibility failure surfaced by createDraft (reason string from
      checkEligibility). -/
  | notEligible
  /-- "Cannot update profile while application is under review". -/
  | profileLocked
deriving DecidableEq, Repr

-- ==================== STATE MACHINE (part_010) ====================

/-- VALID_STATUS_TRANSITIONS table (part_010 lines 291-298). -/
def VALID_STATUS_TRANSITIONS : AppStatus → List AppStatus
  | .DRAFT => [.PENDING]
  | .PENDING => [.UNDER_REVIEW]
  | .UNDER_REVIEW => [.APPROVED, .REJECTED]
  | .APPROVED => [.DISBURSED]
  | .REJECTED => []
  | .DISBURSED => []

/-- isValidStatusTransition (part_010 lines 300-302). -/
def isValidStatusTransition (src tgt : AppStatus) : Bool :=
  (VALID_STATUS_TRANSITIONS src).contains tgt

/-- ACTIVE_APPLICATION_STATUSES (part_010 lines 306-310). -/
def ACTIVE_APPLICATION_STATUSES : List AppStatus :=
  [.DRAFT, .PENDING, .UNDER_REVIEW]

-- ==================== APPLICATION ROW ====================

/-- One row of the applications table, restricted to the columns the embedded
operations read or write.  Monetary DECIMAL columns are modelled as Int,
timestamps as Nat. -/
structure Application where
  id : Nat
  studentProfileId : Nat
  applicationNumber : Nat
  status : AppStatus
  -- working fields (CreateDraftRequest, part_010 lines 100-122)
  outstandingFeesBalance : Int
  hardshipNarrative : String
  currentYearOfStudy : String
  modeOfSponsorship : List String
  howSupportingEducation : List String
  currentFeeSituation : Option String
  isFeesAffectingStudies : Bool
  hasBeenSentHome : Bool
  hasMissedExamsOrClasses : Bool
  difficultiesFaced : List String
  goalForAcademicYear : Option String
  referralSource : Option String
  gpa : Option String
  expectedGraduationDate : Option Nat
  totalAnnualFeeAmount : Option Int
  remainingSemesters : Option Int
  appliedToOtherScholarships : Option Bool
  otherScholarshipsDetails : Option String
  communityInvolvement : Option String
  careerAspirations : Option String
  givingBackPlan : Option String
  -- submission / review bookkeeping
  submittedAt : Option Nat
  reviewedAt : Option Nat
  reviewedBy : Option String
  disbursedAmount : Option Int
  disbursedAt : Option Nat
  disbursementNotes : Option String
  -- snapshot columns (student.service.ts lines 885-897)
  snapshotFullName : Option String
  snapshotDateOfBirth : Option Nat
  snapshotGender : Option String
  snapshotNationalId : Option String
  snapshotPassportNumber : Option String
  snapshotInstitution : Option String
  snapshotProgramme : Option String
  snapshotCounty : Option String
  snapshotSubCounty : Option String
  snapshotWard : Option String
  snapshotPhone : Option String
  snapshotEmail : Option String
  snapshotEducationLevel : Option String
deriving DecidableEq, Repr

/-- One row of application_status_history. -/
structure HistoryRow where
  applicationId : Nat
  previousStatus : Option AppStatus
  newStatus : AppStatus
  changedBy : String
  reason : Option String
  autoGenerated : Bool
deriving DecidableEq, Repr

-- ==================== ADMIN: updateApplicationStatus (part_003 204-303) ====================

/-- JavaScript truthiness of the optional disbursedAmount parameter:
`!disbursedAmount` is true when the value is undefined or 0. -/
def disbursedAmountFalsy : Option Int → Bool
  | none => true
  | some v => v == 0

/-- Core of AdminService.updateApplicationStatus (part_003 lines 204-262):
given the Application row the prisma lookup returned, validate the edge,
build updateData, and return the updated row together with the single history
row created in the same transaction. -/
def updateApplicationStatusCore (app : Application) (adminId : String)
    (newStatus : AppStatus) (notes : Option String)
    (disbursedAmount : Option Int) (now : Nat) :
    Except ServiceError (Application × HistoryRow) :=
  if ¬ isValidStatusTransition app.status newStatus then
    .error (.invalidTransition app.status newStatus)
  else
    let base := { app with
      status := newStatus
      reviewedAt := some now
      reviewedBy := some adminId }
    let row : HistoryRow := {
      applicationId := app.id
      previousStatus := some app.status
      newStatus := newStatus
      changedBy := adminId
      reason := notes
      autoGenerated := false }
    if newStatus = .DISBURSED then
      if disbursedAmountFalsy disbursedAmount then
        .error .missingDisbursedAmount
      else
        .ok ({ base with
          disbursedAmount := disbursedAmount
          disbursedAt := some now
          disbursementNotes := notes }, row)
    else
      .ok (base, row)

/-- updateApplicationStatusSchema body check on disbursedAmount
(part_006 line 481): z.number().positive().optional(). -/
def schemaAcceptsDisbursedAmount : Option Int → Bool
  | none => true
  | some v => 0 < v

/-- The PUT /admin/applications/:id/status pipeline: zod validation
middleware (admin.routes.ts line 53) followed by the service call.  On
success the history list gains exactly the one row produced inside the
transaction. -/
def updateApplicationStatusEndpoint (app : Application) (history : List HistoryRow)
    (adminId : String) (newStatus : AppStatus) (notes : Option String)
    (disbursedAmount : Option Int) (now : Nat) :
    Except ServiceError (Application × List HistoryRow) :=
  if ¬ schemaAcceptsDisbursedAmount disbursedAmount then
    .error .schemaValidation
  else
    match updateApplicationStatusCore app adminId newStatus notes disbursedAmount now with
    | .error e => .error e
    | .ok (app2, row) => .ok (app2, history ++ [row])

-- ==================== STUDENT PROFILE (student.service.ts) ====================

/-- Scalar columns of student_profiles that the completeness logic reads.
Non-nullable text columns are String (presence then means non-empty);
identification columns are nullable.  dateOfBirth is a Date and
admissionYear a number in the source, so the generic
value !== null / undefined / empty-string presence check is always true for
them; they are Nat here. -/
structure ProfileData where
  fullName : String
  dateOfBirth : Nat
  gender : String
  nationalIdNumber : Option String
  passportNumber : Option String
  countyId : String
  subCountyId : String
  wardId : String
  institutionName : String
  institutionType : String
  programmeOrCourse : String
  admissionYear : Nat
deriving DecidableEq, Repr

/-- JavaScript truthiness of an optional string: null/undefined and the empty
string are falsy. -/
def optStrTruthy : Option String → Bool
  | none => false
  | some s => s != ""

/-- StudentService.checkProfileComplete (student.service.ts lines 210-231):
the fixed required-field presence loop plus the identification truthiness
check.  Note: it consults only scalar fields, never documents. -/
def checkProfileComplete (d : ProfileData) : Bool :=
  (d.fullName != "" && d.gender != "" && d.countyId != "" && d.subCountyId != ""
    && d.wardId != "" && d.institutionName != "" && d.institutionType != ""
    && d.programmeOrCourse != "")
  && (optStrTruthy d.nationalIdNumber || optStrTruthy d.passportNumber)

/-- One profile_documents row (columns the embedded logic reads). -/
structure ProfileDocument where
  id : Nat
  documentType : ProfileDocType
  storedFilename : String
deriving DecidableEq, Repr

/-- A student_profiles row together with its profileDocuments relation and
the persisted cached isComplete flag. -/
structure StudentProfileRecord where
  data : ProfileData
  documents : List ProfileDocument
  isComplete : Bool
deriving DecidableEq, Repr

structure ProfileCompletenessResponse where
  isComplete : Bool
  completenessPercentage : Nat
  missingFields : List String
  missingDocuments : List ProfileDocType
  requiredDocuments : List ProfileDocType
  uploadedDocuments : List ProfileDocType
deriving DecidableEq, Repr

/-- requiredDocumentTypes (student.service.ts line 290). -/
def requiredDocumentTypes : List ProfileDocType := [.NATIONAL_ID, .ADMISSION_LETTER]

/-- The requiredFields loop of getProfileCompleteness (lines 257-280): each
label paired with its presence check.  Date of Birth and Admission Year are
non-null non-string columns, so their check is constantly true. -/
def requiredFieldChecks (d : ProfileData) : List (String × Bool) :=
  [("Full Name", d.fullName != ""),
   ("Date of Birth", true),
   ("Gender", d.gender != ""),
   ("County", d.countyId != ""),
   ("Sub-County", d.subCountyId != ""),
   ("Ward", d.wardId != ""),
   ("Institution Name", d.institutionName != ""),
   ("Education Level", d.institutionType != ""),
   ("Programme/Course", d.programmeOrCourse != ""),
   ("Admission Year", true)]

/-- Math.round of (num / den) * 100 for Nat inputs, as floor(x + 1/2). -/
def jsRoundPct (num den : Nat) : Nat := (num * 100 * 2 + den) / (2 * den)

/-- StudentService.getProfileCompleteness (student.service.ts lines 238-309):
the Profile Completeness Evaluator. -/
def getProfileCompleteness : Option StudentProfileRecord → ProfileCompletenessResponse
  | none =>
    { isComplete := false
      completenessPercentage := 0
      missingFields := ["Profile not created"]
      missingDocuments := requiredDocumentTypes
      requiredDocuments := requiredDocumentTypes
      uploadedDocuments := [] }
  | some p =>
    let checks := requiredFieldChecks p.data
    let fieldMissing := (checks.filter (fun c => !c.2)).map Prod.fst
    let filledCount := (checks.filter Prod.snd).length
    let idPresent := optStrTruthy p.data.nationalIdNumber || optStrTruthy p.data.passportNumber
    let missingFields := fieldMissing ++ (if idPresent then [] else ["National ID or Passport"])
    let filled := filledCount + (if idPresent then 1 else 0)
    let uploadedDocumentTypes := p.documents.map (fun d => d.documentType)
    let missingDocuments := requiredDocumentTypes.filter
      (fun t => ¬ uploadedDocumentTypes.contains t)
    let totalItems := checks.length + 1 + requiredDocumentTypes.length
    let completedItems := filled + (requiredDocumentTypes.length - missingDocuments.length)
    { isComplete := missingFields.length == 0 && missingDocuments.length == 0
      completenessPercentage := jsRoundPct completedItems totalItems
      missingFields := missingFields
      missingDocuments := missingDocuments
      requiredDocuments := requiredDocumentTypes
      uploadedDocuments := uploadedDocumentTypes }

/-- StudentService.createProfile (lines 49-117).  The three prisma existence
lookups are passed in as their results. -/
def createProfile (existing : Option StudentProfileRecord)
    (nationalIdTaken passportTaken : Bool) (d : ProfileData) :
    Except ServiceError StudentProfileRecord :=
  if existing.isSome then .error .alreadyExists
  else if optStrTruthy d.nationalIdNumber && nationalIdTaken then .error .alreadyExists
  else if optStrTruthy d.passportNumber && passportTaken then .error .alreadyExists
  else .ok { data := d, documents := [], isComplete := checkProfileComplete d }

/-- Partial update payload for updateProfile (presence = key supplied). -/
structure ProfileUpdateData where
  fullName : Option String
  dateOfBirth : Option Nat
  gender : Option String
  nationalIdNumber : Option String
  passportNumber : Option String
  countyId : Option String
  subCountyId : Option String
  wardId : Option String
  institutionName : Option String
  institutionType : Option String
  programmeOrCourse : Option String
  admissionYear : Option Nat
deriving DecidableEq, Repr

/-- The spread { ...profile, ...updatedData } used at line 190. -/
def mergeProfileData (d : ProfileData) (u : ProfileUpdateData) : ProfileData :=
  { fullName := u.fullName.getD d.fullName
    dateOfBirth := u.dateOfBirth.getD d.dateOfBirth
    gender := u.gender.getD d.gender
    nationalIdNumber := match u.nationalIdNumber with
      | some v => some v
      | none => d.nationalIdNumber
    passportNumber := match u.passportNumber with
      | some v => some v
      | none => d.passportNumber
    countyId := u.countyId.getD d.countyId
    subCountyId := u.subCountyId.getD d.subCountyId
    wardId := u.wardId.getD d.wardId
    institutionName := u.institutionName.getD d.institutionName
    institutionType := u.institutionType.getD d.institutionType
    programmeOrCourse := u.programmeOrCourse.getD d.programmeOrCourse
    admissionYear := u.admissionYear.getD d.admissionYear }

/-- StudentService.updateProfile (lines 122-205).  apps is the list of this
profile's applications (the findFirst for PENDING/UNDER_REVIEW runs over it);
the two uniqueness lookups are passed as their results. -/
def updateProfile (p : StudentProfileRecord) (apps : List Application)
    (nationalIdTaken passportTaken : Bool) (u : ProfileUpdateData) :
    Except ServiceError StudentProfileRecord :=
  if (apps.find? (fun a => a.status == .PENDING || a.status == .UNDER_REVIEW)).isSome then
    .error .profileLocked
  else if optStrTruthy u.nationalIdNumber
      && u.nationalIdNumber != p.data.nationalIdNumber && nationalIdTaken then
    .error .alreadyExists
  else if optStrTruthy u.passportNumber
      && u.passportNumber != p.data.passportNumber && passportTaken then
    .error .alreadyExists
  else
    let merged := mergeProfileData p.data u
    .ok { p with data := merged, isComplete := checkProfileComplete merged }

/-- StudentService.updateProfileCompleteness (lines 455-462): recompute via
the evaluator and persist the flag. -/
def updateProfileCompleteness (p : StudentProfileRecord) : StudentProfileRecord :=
  { p with isComplete := (getProfileCompleteness (some p)).isComplete }

/-- Uploaded file metadata (the subset the embedded logic stores). -/
structure FileMeta where
  originalname : String
  filename : String
deriving DecidableEq, Repr

/-- In-place metadata update of the first document of the given type
(the prisma update keyed by existingDoc.id at lines 345-358). -/
def replaceFirstDoc : List ProfileDocument → ProfileDocType → FileMeta → List ProfileDocument
  | [], _, _ => []
  | doc :: rest, t, f =>
    if doc.documentType == t then
      { doc with storedFilename := f.filename } :: rest
    else
      doc :: replaceFirstDoc rest t f

/-- StudentService.uploadProfileDocument (lines 316-382).  The replace branch
updates the row in place and returns WITHOUT recomputing completeness; only
the create branch calls updateProfileCompleteness. -/
def uploadProfileDocument (p : StudentProfileRecord) (t : ProfileDocType)
    (newId : Nat) (file : FileMeta) : StudentProfileRecord :=
  if (p.documents.find? (fun doc => doc.documentType == t)).isSome then
    { p with documents := replaceFirstDoc p.documents t file }
  else
    updateProfileCompleteness
      { p with documents := p.documents ++
          [{ id := newId, documentType := t, storedFilename := file.filename }] }

/-- StudentService.deleteProfileDocument (lines 407-450).  linkedStatuses are
the statuses of the applications that hold an ApplicationProfileDocumentLink
to this document (the findMany at lines 428-435 filters them to
PENDING/UNDER_REVIEW). -/
def deleteProfileDocument (p : StudentProfileRecord) (docId : Nat)
    (linkedStatuses : List AppStatus) : Except ServiceError StudentProfileRecord :=
  match p.documents.find? (fun doc => doc.id == docId) with
  | none => .error .notFound
  | some _ =>
    if linkedStatuses.any (fun s => s == .PENDING || s == .UNDER_REVIEW) then
      .error .documentLinked
    else
      .ok (updateProfileCompleteness
        { p with documents := p.documents.filter (fun doc => doc.id != docId) })

-- ==================== ELIGIBILITY (student.service.ts 469-528) ====================

structure EligibilityResponse where
  canApply : Bool
  reason : String
  profileCompleteness : Nat
  missingFields : List String
  hasActiveApplication : Bool
  activeApplicationId : Option Nat
  activeApplicationStatus : Option AppStatus
deriving DecidableEq, Repr

/-- Runtime string value of a ProfileDocType (used when missingDocuments is
spread into the missingFields string array at line 495). -/
def ProfileDocType.label : ProfileDocType → String
  | .NATIONAL_ID => "NATIONAL_ID"
  | .PASSPORT => "PASSPORT"
  | .KCSE_CERT => "KCSE_CERT"
  | .ADMISSION_LETTER => "ADMISSION_LETTER"
  | .STUDENT_ID => "STUDENT_ID"
  | .TRANSCRIPT => "TRANSCRIPT"

/-- The findFirst predicate for an active application: status in
ACTIVE_APPLICATION_STATUSES (student.service.ts lines 501-507). -/
def isActiveStatusApp (a : Application) : Bool :=
  ACTIVE_APPLICATION_STATUSES.contains a.status

/-- StudentService.checkEligibility (lines 469-528).  Its inputs are the
profile lookup result and this profile's applications; it consults nothing
else (in particular, no ApplicationPeriod table). -/
def checkEligibility (profile : Option StudentProfileRecord)
    (apps : List Application) : EligibilityResponse :=
  match profile with
  | none =>
    { canApply := false
      reason := "Profile not found. Please create a profile first."
      profileCompleteness := 0
      missingFields := ["Profile not created"]
      hasActiveApplication := false
      activeApplicationId := none
      activeApplicationStatus := none }
  | some p =>
    let completeness := getProfileCompleteness (some p)
    if ¬ completeness.isComplete then
      { canApply := false
        reason := "Profile is incomplete. Please complete all required fields and upload required documents."
        profileCompleteness := completeness.completenessPercentage
        missingFields := completeness.missingFields
          ++ completeness.missingDocuments.map ProfileDocType.label
        hasActiveApplication := false
        activeApplicationId := none
        activeApplicationStatus := none }
    else
      match apps.find? isActiveStatusApp with
      | some a =>
        { canApply := false
          reason := "You already have an active application."
          profileCompleteness := completeness.completenessPercentage
          missingFields := []
          hasActiveApplication := true
          activeApplicationId := some a.id
          activeApplicationStatus := some a.status }
      | none =>
        { canApply := true
          reason := "You are eligible to submit a new application."
          profileCompleteness := completeness.completenessPercentage
          missingFields := []
          hasActiveApplication := false
          activeApplicationId := none
          activeApplicationStatus := none }

-- ==================== APPLICATION PERIODS ====================

/-- One application_periods row. -/
structure ApplicationPeriod where
  id : Nat
  academicYear : String
  title : String
  description : Option String
  startDate : Nat
  endDate : Nat
  isActive : Bool
deriving DecidableEq, Repr

/-- Claim-side predicate (spec wording): an active ApplicationPeriod exists
whose date range covers the instant now.  The student-side eligibility and
draft-creation code never evaluates this; only
config.service.ts getCurrentConfig derives a window flag from it. -/
def activePeriodCovers (periods : List ApplicationPeriod) (now : Nat) : Bool :=
  periods.any (fun p => p.isActive && decide (p.startDate ≤ now) && decide (now ≤ p.endDate))

-- ==================== DRAFT CREATE / UPDATE ====================

/-- CreateDraftRequest (part_010 lines 100-122), restricted to the keys
createDraft persists (student.service.ts lines 562-579). -/
structure CreateDraftData where
  outstandingFeesBalance : Int
  hardshipNarrative : String
  currentYearOfStudy : String
  modeOfSponsorship : List String
  howSupportingEducation : Option (List String)
  currentFeeSituation : Option String
  isFeesAffectingStudies : Option Bool
  hasBeenSentHome : Option Bool
  hasMissedExamsOrClasses : Option Bool
  difficultiesFaced : Option (List String)
  goalForAcademicYear : Option String
  referralSource : Option String
deriving DecidableEq, Repr

/-- StudentService.createDraft (lines 535-599): profile lookup, eligibility
gate, then one transaction creating the DRAFT row plus its initial history
row.  newId is the id the database assigns; applicationCount the prior row
count used for the application number. -/
def createDraft (profile : Option StudentProfileRecord) (profileId : Nat)
    (apps : List Application) (applicationCount : Nat) (newId : Nat)
    (userId : String) (d : CreateDraftData) :
    Except ServiceError (Application × HistoryRow) :=
  match profile with
  | none => .error .notFound
  | some p =>
    if ¬ (checkEligibility (some p) apps).canApply then .error .notEligible
    else
      .ok ({ id := newId
             studentProfileId := profileId
             applicationNumber := applicationCount + 1
             status := .DRAFT
             outstandingFeesBalance := d.outstandingFeesBalance
             hardshipNarrative := d.hardshipNarrative
             currentYearOfStudy := d.currentYearOfStudy
             modeOfSponsorship := d.modeOfSponsorship
             howSupportingEducation := d.howSupportingEducation.getD []
             currentFeeSituation := d.currentFeeSituation
             isFeesAffectingStudies := d.isFeesAffectingStudies.getD false
             hasBeenSentHome := d.hasBeenSentHome.getD false
             hasMissedExamsOrClasses := d.hasMissedExamsOrClasses.getD false
             difficultiesFaced := d.difficultiesFaced.getD []
             goalForAcademicYear := d.goalForAcademicYear
             referralSource := d.referralSource
             gpa := none
             expectedGraduationDate := none
             totalAnnualFeeAmount := none
             remainingSemesters := none
             appliedToOtherScholarships := none
             otherScholarshipsDetails := none
             communityInvolvement := none
             careerAspirations := none
             givingBackPlan := none
             submittedAt := none
             reviewedAt := none
             reviewedBy := none
             disbursedAmount := none
             disbursedAt := none
             disbursementNotes := none
             snapshotFullName := none
             snapshotDateOfBirth := none
             snapshotGender := none
             snapshotNationalId := none
             snapshotPassportNumber := none
             snapshotInstitution := none
             snapshotProgramme := none
             snapshotCounty := none
             snapshotSubCounty := none
             snapshotWard := none
             snapshotPhone := none
             snapshotEmail := none
             snapshotEducationLevel := none },
           { applicationId := newId
             previousStatus := none
             newStatus := .DRAFT
             changedBy := userId
             reason := some "Application draft created"
             autoGenerated := true })

/-- UpdateDraftRequest: Partial of CreateDraftRequest, every key optional. -/
structure UpdateDraftData where
  outstandingFeesBalance : Option Int
  hardshipNarrative : Option String
  currentYearOfStudy : Option String
  modeOfSponsorship : Option (List String)
  howSupportingEducation : Option (List String)
  currentFeeSituation : Option String
  isFeesAffectingStudies : Option Bool
  hasBeenSentHome : Option Bool
  hasMissedExamsOrClasses : Option Bool
  difficultiesFaced : Option (List String)
  goalForAcademicYear : Option String
  referralSource : Option String
  gpa : Option String
  expectedGraduationDate : Option Nat
  totalAnnualFeeAmount : Option Int
  remainingSemesters : Option Int
  appliedToOtherScholarships : Option Bool
  otherScholarshipsDetails : Option String
  communityInvolvement : Option String
  careerAspirations : Option String
  givingBackPlan : Option String
deriving DecidableEq, Repr

/-- The prisma update payload of updateDraft (student.service.ts lines
628-636): spread of the supplied keys, except that outstandingFeesBalance is
rebuilt with a truthiness guard — a supplied value of exactly 0 is replaced
by undefined and therefore skipped by prisma, keeping the previous value. -/
def applyUpdateDraft (app : Application) (u : UpdateDraftData) : Application :=
  { app with
    outstandingFeesBalance :=
      match u.outstandingFeesBalance with
      | some v => if v == 0 then app.outstandingFeesBalance else v
      | none => app.outstandingFeesBalance
    hardshipNarrative := u.hardshipNarrative.getD app.hardshipNarrative
    currentYearOfStudy := u.currentYearOfStudy.getD app.currentYearOfStudy
    modeOfSponsorship := u.modeOfSponsorship.getD app.modeOfSponsorship
    howSupportingEducation := u.howSupportingEducation.getD app.howSupportingEducation
    currentFeeSituation := match u.currentFeeSituation with
      | some v => some v
      | none => app.currentFeeSituation
    isFeesAffectingStudies := u.isFeesAffectingStudies.getD app.isFeesAffectingStudies
    hasBeenSentHome := u.hasBeenSentHome.getD app.hasBeenSentHome
    hasMissedExamsOrClasses := u.hasMissedExamsOrClasses.getD app.hasMissedExamsOrClasses
    difficultiesFaced := u.difficultiesFaced.getD app.difficultiesFaced
    goalForAcademicYear := match u.goalForAcademicYear with
      | some v => some v
      | none => app.goalForAcademicYear
    referralSource := match u.referralSource with
      | some v => some v
      | none => app.referralSource
    gpa := match u.gpa with
      | some v => some v
      | none => app.gpa
    expectedGraduationDate := match u.expectedGraduationDate with
      | some v => some v
      | none => app.expectedGraduationDate
    totalAnnualFeeAmount := match u.totalAnnualFeeAmount with
      | some v => some v
      | none => app.totalAnnualFeeAmount
    remainingSemesters := match u.remainingSemesters with
      | some v => some v
      | none => app.remainingSemesters
    appliedToOtherScholarships := match u.appliedToOtherScholarships with
      | some v => some v
      | none => app.appliedToOtherScholarships
    otherScholarshipsDetails := match u.otherScholarshipsDetails with
      | some v => some v
      | none => app.otherScholarshipsDetails
    communityInvolvement := match u.communityInvolvement with
      | some v => some v
      | none => app.communityInvolvement
    careerAspirations := match u.careerAspirations with
      | some v => some v
      | none => app.careerAspirations
    givingBackPlan := match u.givingBackPlan with
      | some v => some v
      | none => app.givingBackPlan }

/-- StudentService.updateDraft (lines 604-640): profile lookup, ownership
lookup of the application, DRAFT guard, then the update. -/
def updateDraft (profile : Option StudentProfileRecord)
    (app : Option Application) (u : UpdateDraftData) :
    Except ServiceError Application :=
  match profile with
  | none => .error .notFound
  | some _ =>
    match app with
    | none => .error .notFound
    | some a =>
      if a.status ≠ .DRAFT then .error .notDraft
      else .ok (applyUpdateDraft a u)

-- ==================== SUBMISSION (student.service.ts 834-918) ====================

/-- The profile as loaded by submitApplication, with the included county,
subCounty, ward and user relations that feed the snapshot. -/
structure ProfileContext where
  record : StudentProfileRecord
  countyName : String
  subCountyName : String
  wardName : String
  userEmail : String
  userPhone : Option String
deriving DecidableEq, Repr

/-- The snapshot-and-submit update of submitApplication (lines 879-899). -/
def buildSnapshot (ctx : ProfileContext) (app : Application) (now : Nat) : Application :=
  { app with
    status := .PENDING
    submittedAt := some now
    snapshotFullName := some ctx.record.data.fullName
    snapshotDateOfBirth := some ctx.record.data.dateOfBirth
    snapshotGender := some ctx.record.data.gender
    snapshotNationalId := ctx.record.data.nationalIdNumber
    snapshotPassportNumber := ctx.record.data.passportNumber
    snapshotInstitution := some ctx.record.data.institutionName
    snapshotProgramme := some ctx.record.data.programmeOrCourse
    snapshotCounty := some ctx.countyName
    snapshotSubCounty := some ctx.subCountyName
    snapshotWard := some ctx.wardName
    snapshotPhone := ctx.userPhone
    snapshotEmail := some ctx.userEmail
    snapshotEducationLevel := some ctx.record.data.institutionType }

/-- StudentService.submitApplication (lines 834-918): lookups, DRAFT guard,
mandatory FEE_STRUCTURE document guard, then one transaction performing the
snapshot update and appending the history row. -/
def submitApplication (profile : Option ProfileContext)
    (app : Option Application) (appDocs : List AppDocType)
    (userId : String) (now : Nat) :
    Except ServiceError (Application × HistoryRow) :=
  match profile with
  | none => .error .notFound
  | some ctx =>
    match app with
    | none => .error .notFound
    | some a =>
      if a.status ≠ .DRAFT then .error .notDraft
      else if ¬ appDocs.any (fun t => t == .FEE_STRUCTURE) then
        .error .missingFeeDocument
      else
        .ok (buildSnapshot ctx a now,
          { applicationId := a.id
            previousStatus := some .DRAFT
            newStatus := .PENDING
            changedBy := userId
            reason := some "Application submitted for review"
            autoGenerated := true })

-- ==================== PERIOD OPERATIONS (part_003 1012-1099) ====================

/-- AdminService.createApplicationPeriod (lines 1026-1042): isActive is not
set, so the column keeps its database default of false
(migration 20260219130000, application_periods.isActive DEFAULT false). -/
def createApplicationPeriod (periods : List ApplicationPeriod) (newId : Nat)
    (academicYear title : String) (description : Option String)
    (startDate endDate : Nat) : List ApplicationPeriod :=
  periods ++ [{ id := newId, academicYear := academicYear, title := title
                description := description, startDate := startDate
                endDate := endDate, isActive := false }]

/-- AdminService.updateApplicationPeriod (lines 1047-1065): only the listed
metadata/date columns can change; isActive is untouched. -/
def updateApplicationPeriod (periods : List ApplicationPeriod) (pid : Nat)
    (academicYear title : Option String) (description : Option String)
    (startDate endDate : Option Nat) :
    Except ServiceError (List ApplicationPeriod) :=
  if (periods.find? (fun p => p.id == pid)).isSome then
    .ok (periods.map (fun p =>
      if p.id == pid then
        { p with
          academicYear := academicYear.getD p.academicYear
          title := title.getD p.title
          description := match description with
            | some v => some v
            | none => p.description
          startDate := startDate.getD p.startDate
          endDate := endDate.getD p.endDate }
      else p))
  else .error .notFound

/-- AdminService.deleteApplicationPeriod (lines 1070-1077). -/
def deleteApplicationPeriod (periods : List ApplicationPeriod) (pid : Nat) :
    Except ServiceError (List ApplicationPeriod) :=
  match periods.find? (fun p => p.id == pid) with
  | none => .error .notFound
  | some period =>
    if period.isActive then .error .periodActive
    else .ok (periods.filter (fun p => p.id != pid))

/-- Step one of the activation transaction: updateMany where isActive = true,
set isActive = false (part_003 lines 1088-1091). -/
def deactivateAllPeriods (periods : List ApplicationPeriod) : List ApplicationPeriod :=
  periods.map (fun p => if p.isActive then { p with isActive := false } else p)

/-- Step two: update where id, set isActive = true (lines 1094-1097). -/
def activateTargetPeriod (periods : List ApplicationPeriod) (pid : Nat) :
    List ApplicationPeriod :=
  periods.map (fun p => if p.id == pid then { p with isActive := true } else p)

/-- AdminService.activateApplicationPeriod (lines 1082-1099): existence
check, then both steps inside a single prisma transaction — hence one atomic
state transformer here. -/
def activateApplicationPeriod (periods : List ApplicationPeriod) (pid : Nat) :
    Except ServiceError (List ApplicationPeriod) :=
  if (periods.find? (fun p => p.id == pid)).isSome then
    .ok (activateTargetPeriod (deactivateAllPeriods periods) pid)
  else .error .notFound

-- ==================== REVIEW SCORING (part_003 1106-1148) ====================

/-- One review_scores row. -/
structure ReviewScore where
  applicationId : Nat
  reviewerId : String
  financialNeed : Nat
  academicMerit : Nat
  communityImpact : Nat
  vulnerability : Nat
  overallScore : ℚ
  comments : Option String
deriving DecidableEq, Repr

/-- The validated body of POST /admin/applications/:id/scores. -/
structure ScoreInput where
  financialNeed : Nat
  academicMerit : Nat
  communityImpact : Nat
  vulnerability : Nat
  comments : Option String
deriving DecidableEq, Repr

/-- A raw request body as a client may send it, including an aggregate the
schema does not declare. -/
structure RawScoreBody where
  financialNeed : Int
  academicMerit : Int
  communityImpact : Int
  vulnerability : Int
  comments : Option String
  overallScore : Option ℚ
deriving DecidableEq, Repr

/-- scoreApplicationSchema body (part_006 lines 578-589): each dimension
z.number().int().min(1).max(5); unknown keys — including any client-supplied
overallScore — are stripped by z.object. -/
def parseScoreBody (b : RawScoreBody) : Option ScoreInput :=
  if 1 ≤ b.financialNeed ∧ b.financialNeed ≤ 5
      ∧ 1 ≤ b.academicMerit ∧ b.academicMerit ≤ 5
      ∧ 1 ≤ b.communityImpact ∧ b.communityImpact ≤ 5
      ∧ 1 ≤ b.vulnerability ∧ b.vulnerability ≤ 5 then
    some { financialNeed := b.financialNeed.toNat
           academicMerit := b.academicMerit.toNat
           communityImpact := b.communityImpact.toNat
           vulnerability := b.vulnerability.toNat
           comments := b.comments }
  else none

/-- overallScore computed server-side (part_003 lines 1123-1128). -/
def serverOverallScore (s : ScoreInput) : ℚ :=
  ((s.financialNeed : ℚ) + s.academicMerit + s.communityImpact + s.vulnerability) / 4

/-- Whether a row belongs to the (applicationId, reviewerId) unique key. -/
def scoreKeyMatches (applicationId : Nat) (reviewerId : String) (r : ReviewScore) : Bool :=
  r.applicationId == applicationId && r.reviewerId == reviewerId

/-- The row written by the upsert: spread of the validated sub-scores plus
the server-computed overallScore (part_003 lines 1137-1146). -/
def mkReviewScoreRow (applicationId : Nat) (reviewerId : String)
    (s : ScoreInput) : ReviewScore :=
  { applicationId := applicationId
    reviewerId := reviewerId
    financialNeed := s.financialNeed
    academicMerit := s.academicMerit
    communityImpact := s.communityImpact
    vulnerability := s.vulnerability
    overallScore := serverOverallScore s
    comments := s.comments }

/-- prisma.reviewScore.upsert on the applicationId_reviewerId unique key
(lines 1130-1147): replace the existing row's payload, or append a new row. -/
def upsertReviewScore (store : List ReviewScore) (applicationId : Nat)
    (reviewerId : String) (s : ScoreInput) : List ReviewScore :=
  let row := mkReviewScoreRow applicationId reviewerId s
  if store.any (scoreKeyMatches applicationId reviewerId) then
    store.map (fun r => if scoreKeyMatches applicationId reviewerId r then row else r)
  else
    store ++ [row]

/-- AdminService.scoreApplication (part_003 lines 1106-1148).  appExists is
the result of the application lookup. -/
def scoreApplication (appExists : Bool) (store : List ReviewScore)
    (applicationId : Nat) (reviewerId : String) (s : ScoreInput) :
    Except ServiceError (List ReviewScore) :=
  if ¬ appExists then .error .notFound
  else .ok (upsertReviewScore store applicationId reviewerId s)

-- ==================== ADMIN DB + BULK (part_003 310-336) ====================

/-- The slice of the database the admin status operations touch. -/
structure AdminDb where
  applications : List Application
  history : List HistoryRow
deriving DecidableEq, Repr

/-- updateApplicationStatus acting on the database slice: the findUnique
lookup, then the core, then the committed writes. -/
def updateApplicationStatusDb (db : AdminDb) (applicationId : Nat)
    (adminId : String) (newStatus : AppStatus) (notes : Option String)
    (disbursedAmount : Option Int) (now : Nat) :
    Except ServiceError AdminDb :=
  match db.applications.find? (fun a => a.id == applicationId) with
  | none => .error .notFound
  | some app =>
    match updateApplicationStatusCore app adminId newStatus notes disbursedAmount now with
    | .error e => .error e
    | .ok (app2, row) =>
      .ok { applications := db.applications.map
              (fun a => if a.id == applicationId then app2 else a)
            history := db.history ++ [row] }

/-- Run an Except-valued database operation: an error leaves the database
exactly as it was (nothing was committed). -/
def applyDbResult (db : AdminDb) : Except ServiceError AdminDb → AdminDb
  | .ok db2 => db2
  | .error _ => db

structure BulkUpdateResponse where
  success : Bool
  updated : Nat
  failed : Nat
  errors : List (Nat × ServiceError)
deriving DecidableEq, Repr

/-- Accumulator of the for-loop in bulkUpdate. -/
structure BulkAcc where
  updated : Nat
  failed : Nat
  errors : List (Nat × ServiceError)
  db : AdminDb
deriving DecidableEq, Repr

/-- One iteration of the bulkUpdate loop (part_003 lines 320-331): the
try/catch around updateApplicationStatus, called without a disbursedAmount. -/
def bulkStep (adminId : String) (newStatus : AppStatus) (note : Option String)
    (now : Nat) (acc : BulkAcc) (applicationId : Nat) : BulkAcc :=
  match updateApplicationStatusDb acc.db applicationId adminId newStatus note none now with
  | .ok db2 => { acc with updated := acc.updated + 1, db := db2 }
  | .error e => { acc with failed := acc.failed + 1, errors := acc.errors ++ [(applicationId, e)] }

/-- AdminService.bulkUpdate (part_003 lines 310-336): sequential fold over
the ids, then success := failed === 0. -/
def bulkUpdate (db : AdminDb) (adminId : String) (applicationIds : List Nat)
    (newStatus : AppStatus) (note : Option String) (now : Nat) :
    BulkUpdateResponse × AdminDb :=
  let acc := applicationIds.foldl (bulkStep adminId newStatus note now)
    { updated := 0, failed := 0, errors := [], db := db }
  ({ success := acc.failed == 0
     updated := acc.updated
     failed := acc.failed
     errors := acc.errors }, acc.db)

/-- Commit the result of a submit attempt against the stored application row
and its history: an error commits nothing (the guards run before the
transaction opens). -/
def applySubmitResult (app : Application) (history : List HistoryRow) :
    Except ServiceError (Application × HistoryRow) → Application × List HistoryRow
  | .ok (a, row) => (a, history ++ [row])
  | .error _ => (app, history)

-- ==================== SAMPLE DATA (for witnesses and counterexamples) ====================

/-- Whether an Except result is a success. -/
def exceptOk {α : Type} : Except ServiceError α → Bool
  | .ok _ => true
  | .error _ => false

/-- A freshly created draft application row. -/
def sampleDraftApp : Application :=
  { id := 1
    studentProfileId := 1
    applicationNumber := 1
    status := .DRAFT
    outstandingFeesBalance := 15000
    hardshipNarrative := "fees narrative"
    currentYearOfStudy := "2"
    modeOfSponsorship := ["SELF"]
    howSupportingEducation := []
    currentFeeSituation := none
    isFeesAffectingStudies := false
    hasBeenSentHome := false
    hasMissedExamsOrClasses := false
    difficultiesFaced := []
    goalForAcademicYear := none
    referralSource := none
    gpa := none
    expectedGraduationDate := none
    totalAnnualFeeAmount := none
    remainingSemesters := none
    appliedToOtherScholarships := none
    otherScholarshipsDetails := none
    communityInvolvement := none
    careerAspirations := none
    givingBackPlan := none
    submittedAt := none
    reviewedAt := none
    reviewedBy := none
    disbursedAmount := none
    disbursedAt := none
    disbursementNotes := none
    snapshotFullName := none
    snapshotDateOfBirth := none
    snapshotGender := none
    snapshotNationalId := none
    snapshotPassportNumber := none
    snapshotInstitution := none
    snapshotProgramme := none
    snapshotCounty := none
    snapshotSubCounty := none
    snapshotWard := none
    snapshotPhone := none
    snapshotEmail := none
    snapshotEducationLevel := none }

/-- The sample application at a chosen id and status. -/
def appWith (i : Nat) (s : AppStatus) : Application :=
  { sampleDraftApp with id := i, status := s }

/-- A profile whose scalar fields are all filled and that carries a national
id. -/
def cProfileData : ProfileData :=
  { fullName := "Jane Student"
    dateOfBirth := 20000101
    gender := "F"
    nationalIdNumber := some "12345678"
    passportNumber := none
    countyId := "c1"
    subCountyId := "sc1"
    wardId := "w1"
    institutionName := "State University"
    institutionType := "UNIVERSITY"
    programmeOrCourse := "BSc"
    admissionYear := 2023 }

/-- The same profile with both required documents uploaded (fully complete
per the evaluator). -/
def cCompleteProfile : StudentProfileRecord :=
  { data := cProfileData
    documents := [{ id := 1, documentType := .NATIONAL_ID, storedFilename := "id.png" },
                  { id := 2, documentType := .ADMISSION_LETTER, storedFilename := "adm.pdf" }]
    isComplete := true }

/-- A draft-creation payload. -/
def cDraftData : CreateDraftData :=
  { outstandingFeesBalance := 20000
    hardshipNarrative := "need support"
    currentYearOfStudy := "1"
    modeOfSponsorship := ["PARENTS"]
    howSupportingEducation := none
    currentFeeSituation := none
    isFeesAffectingStudies := none
    hasBeenSentHome := none
    hasMissedExamsOrClasses := none
    difficultiesFaced := none
    goalForAcademicYear := none
    referralSource := none }

/-- A submit-time profile context. -/
def cProfileContext : ProfileContext :=
  { record := cCompleteProfile
    countyName := "Nairobi"
    subCountyName := "Westlands"
    wardName := "Parklands"
    userEmail := "jane@example.com"
    userPhone := some "0700000000" }

/-- An all-optional update-draft payload with every key absent. -/
def emptyUpdateDraft : UpdateDraftData :=
  { outstandingFeesBalance := none
    hardshipNarrative := none
    currentYearOfStudy := none
    modeOfSponsorship := none
    howSupportingEducation := none
    currentFeeSituation := none
    isFeesAffectingStudies := none
    hasBeenSentHome := none
    hasMissedExamsOrClasses := none
    difficultiesFaced := none
    goalForAcademicYear := none
    referralSource := none
    gpa := none
    expectedGraduationDate := none
    totalAnnualFeeAmount := none
    remainingSemesters := none
    appliedToOtherScholarships := none
    otherScholarshipsDetails := none
    communityInvolvement := none
    careerAspirations := none
    givingBackPlan := none }

/-- A raw score body inside the 1-5 range, carrying a client aggregate that
the schema must strip. -/
def cRawScore1 : RawScoreBody :=
  { financialNeed := 3, academicMerit := 4, communityImpact := 5
    vulnerability := 2, comments := none, overallScore := some 5 }

/-- A second raw score body from the same reviewer. -/
def cRawScore2 : RawScoreBody :=
  { financialNeed := 1, academicMerit := 2, communityImpact := 3
    vulnerability := 4, comments := some "revised", overallScore := some 1 }

/-- Number of active rows in application_periods. -/
def countActivePeriods (periods : List ApplicationPeriod) : Nat :=
  (periods.filter (fun p => p.isActive)).length

/-- Two sample periods, A active and B inactive. -/
def cPeriodA : ApplicationPeriod :=
  { id := 1, academicYear := "2025/26", title := "Period A"
    description := none, startDate := 100, endDate := 200, isActive := true }

def cPeriodB : ApplicationPeriod :=
  { id := 2, academicYear := "2026/27", title := "Period B"
    description := none, startDate := 300, endDate := 400, isActive := false }

/-- A three-application database for the mixed bulk-update scenario: two
PENDING rows and one DRAFT row. -/
def cBulkDb : AdminDb :=
  { applications := [appWith 1 .PENDING, appWith 2 .PENDING, appWith 3 .DRAFT]
    history := [] }

/-- The bulk run moving that batch to UNDER_REVIEW. -/
def cBulkRun : BulkUpdateResponse × AdminDb :=
  bulkUpdate cBulkDb "admin1" [1, 2, 3] .UNDER_REVIEW none 7

/-- The parsed form of cRawScore1. -/
def cScore1 : ScoreInput :=
  { financialNeed := 3, academicMerit := 4, communityImpact := 5
    vulnerability := 2, comments := none }

/-- The parsed form of cRawScore2. -/
def cScore2 : ScoreInput :=
  { financialNeed := 1, academicMerit := 2, communityImpact := 3
    vulnerability := 4, comments := some "revised" }

/-- The persisted record createProfile stores for cProfileData: no documents
yet, cached flag from the scalar-only check. -/
def cNoDocProfile : StudentProfileRecord :=
  { data := cProfileData, documents := [], isComplete := true }

/-- A file upload payload. -/
def cFileMeta : FileMeta :=
  { originalname := "id.png", filename := "stored-id.png" }

/-- An update-draft payload supplying a zero balance and a new narrative. -/
def cZeroUpdate : UpdateDraftData :=
  { emptyUpdateDraft with
    outstandingFeesBalance := some 0
    hardshipNarrative := some "updated text" }

-- ==================== THEOREMS ====================

/-- C1: the status-update operation succeeds only on the five allowed edges
DRAFT→PENDING, PENDING→UNDER_REVIEW, UNDER_REVIEW→APPROVED,
UNDER_REVIEW→REJECTED, APPROVED→DISBURSED; every other pair — in particular
any move into DRAFT and any move out of REJECTED or DISBURSED — fails with
the invalid-transition error and leaves the database, hence the
application's status, unchanged. -/
theorem C1_valid_transitions :
    (∀ src tgt : AppStatus, isValidStatusTransition src tgt = true ↔
      (src, tgt) ∈ ([(.DRAFT, .PENDING), (.PENDING, .UNDER_REVIEW),
          (.UNDER_REVIEW, .APPROVED), (.UNDER_REVIEW, .REJECTED),
          (.APPROVED, .DISBURSED)] : List (AppStatus × AppStatus)))
    ∧ (∀ src : AppStatus, isValidStatusTransition src .DRAFT = false)
    ∧ (∀ tgt : AppStatus, isValidStatusTransition .REJECTED tgt = false
        ∧ isValidStatusTransition .DISBURSED tgt = false)
    ∧ (∀ db applicationId adminId newStatus notes disbursedAmount now app,
        db.applications.find? (fun a => a.id == applicationId) = some app →
        isValidStatusTransition app.status newStatus = false →
        updateApplicationStatusDb db applicationId adminId newStatus notes disbursedAmount now
            = .error (.invalidTransition app.status newStatus)
          ∧ applyDbResult db
              (updateApplicationStatusDb db applicationId adminId newStatus notes disbursedAmount now)
            = db)
    ∧ (∀ db applicationId adminId newStatus notes disbursedAmount now app db2,
        db.applications.find? (fun a => a.id == applicationId) = some app →
        updateApplicationStatusDb db applicationId adminId newStatus notes disbursedAmount now
          = .ok db2 →
        isValidStatusTransition app.status newStatus = true) := by
  refine ⟨by decide, by decide, by decide, ?_, ?_⟩
  · intro db aid adm ns notes disb now app hfind hinv
    have h1 : updateApplicationStatusDb db aid adm ns notes disb now
        = .error (.invalidTransition app.status ns) := by
      simp [updateApplicationStatusDb, hfind, updateApplicationStatusCore, hinv]
    exact ⟨h1, by rw [h1]; rfl⟩
  · intro db aid adm ns notes disb now app db2 hfind hok
    cases hv : isValidStatusTransition app.status ns with
    | true => rfl
    | false =>
      simp [updateApplicationStatusDb, hfind, updateApplicationStatusCore, hv] at hok

/-- Witness for C1: an attempt at PENDING→APPROVED (skipping UNDER_REVIEW)
fails with the invalid-transition error and the database is unchanged. -/
theorem C1_valid_transitions_witness :
    updateApplicationStatusDb
        { applications := [appWith 1 .PENDING], history := [] }
        1 "admin" .APPROVED none none 9
      = .error (.invalidTransition (appWith 1 .PENDING).status .APPROVED)
    ∧ applyDbResult { applications := [appWith 1 .PENDING], history := [] }
        (updateApplicationStatusDb
          { applications := [appWith 1 .PENDING], history := [] }
          1 "admin" .APPROVED none none 9)
      = { applications := [appWith 1 .PENDING], history := [] } :=
  C1_valid_transitions.2.2.2.1
    { applications := [appWith 1 .PENDING], history := [] }
    1 "admin" .APPROVED none none 9 (appWith 1 .PENDING)
    (by decide) (by decide)

/-- C2 counterexample: the admin status-update operation performs a
successful DRAFT→PENDING transition on a draft application and yet leaves
every snapshot field and submittedAt at null — refuting the claim that every
code path performing DRAFT→PENDING populates the snapshot fields and stamps
submittedAt. -/
theorem C2_counterexample :
    sampleDraftApp.status = .DRAFT
    ∧ updateApplicationStatusCore sampleDraftApp "admin1" .PENDING none none 5
      = .ok ({ sampleDraftApp with
                status := .PENDING
                reviewedAt := some 5
                reviewedBy := some "admin1" },
             { applicationId := 1, previousStatus := some .DRAFT
               newStatus := .PENDING, changedBy := "admin1"
               reason := none, autoGenerated := false })
    ∧ ({ sampleDraftApp with
          status := .PENDING
          reviewedAt := some 5
          reviewedBy := some "admin1" } : Application).snapshotFullName = none
    ∧ ({ sampleDraftApp with
          status := .PENDING
          reviewedAt := some 5
          reviewedBy := some "admin1" } : Application).snapshotEmail = none
    ∧ ({ sampleDraftApp with
          status := .PENDING
          reviewedAt := some 5
          reviewedBy := some "admin1" } : Application).submittedAt = none :=
  ⟨rfl, rfl, rfl, rfl, rfl⟩

/-- C2 amended: the snapshot build happens exactly on the student submit
path.  A successful submitApplication moves DRAFT→PENDING, populates the
snapshot fields from the profile/user context and stamps submittedAt; the
admin status-update operation, on every successful transition — including a
DRAFT→PENDING it is allowed to perform — changes only status and the
reviewer bookkeeping (reviewedAt, reviewedBy), plus the disbursement fields
solely when the target is DISBURSED, leaving all working and snapshot fields
and submittedAt unchanged. -/
theorem C2_snapshot_paths :
    (∀ ctx a docs userId now,
      a.status = .DRAFT →
      docs.any (fun t => t == AppDocType.FEE_STRUCTURE) = true →
      submitApplication (some ctx) (some a) docs userId now
        = .ok ({ a with
                  status := .PENDING
                  submittedAt := some now
                  snapshotFullName := some ctx.record.data.fullName
                  snapshotDateOfBirth := some ctx.record.data.dateOfBirth
                  snapshotGender := some ctx.record.data.gender
                  snapshotNationalId := ctx.record.data.nationalIdNumber
                  snapshotPassportNumber := ctx.record.data.passportNumber
                  snapshotInstitution := some ctx.record.data.institutionName
                  snapshotProgramme := some ctx.record.data.programmeOrCourse
                  snapshotCounty := some ctx.countyName
                  snapshotSubCounty := some ctx.subCountyName
                  snapshotWard := some ctx.wardName
                  snapshotPhone := ctx.userPhone
                  snapshotEmail := some ctx.userEmail
                  snapshotEducationLevel := some ctx.record.data.institutionType },
               { applicationId := a.id, previousStatus := some .DRAFT
                 newStatus := .PENDING, changedBy := userId
                 reason := some "Application submitted for review"
                 autoGenerated := true }))
    ∧ (∀ a adminId newStatus notes disb now,
      isValidStatusTransition a.status newStatus = true →
      newStatus ≠ .DISBURSED →
      updateApplicationStatusCore a adminId newStatus notes disb now
        = .ok ({ a with
                  status := newStatus
                  reviewedAt := some now
                  reviewedBy := some adminId },
               { applicationId := a.id, previousStatus := some a.status
                 newStatus := newStatus, changedBy := adminId
                 reason := notes, autoGenerated := false }))
    ∧ (∀ a adminId notes disb now,
      isValidStatusTransition a.status .DISBURSED = true →
      disbursedAmountFalsy disb = false →
      updateApplicationStatusCore a adminId .DISBURSED notes disb now
        = .ok ({ a with
                  status := .DISBURSED
                  reviewedAt := some now
                  reviewedBy := some adminId
                  disbursedAmount := disb
                  disbursedAt := some now
                  disbursementNotes := notes },
               { applicationId := a.id, previousStatus := some a.status
                 newStatus := .DISBURSED, changedBy := adminId
                 reason := notes, autoGenerated := false })) := by
  refine ⟨?_, ?_, ?_⟩
  · intro ctx a docs userId now h1 h2
    simp [submitApplication, h1, h2, buildSnapshot]
  · intro a adminId newStatus notes disb now hv hd
    simp [updateApplicationStatusCore, hv, hd]
  · intro a adminId notes disb now hv hf
    simp [updateApplicationStatusCore, hv, hf]

/-- Witness for C2 amended: a concrete draft is submitted with a fee
structure document present; and a concrete PENDING application moves to
UNDER_REVIEW through the admin operation. -/
theorem C2_snapshot_paths_witness :
    submitApplication (some cProfileContext) (some sampleDraftApp)
        [.FEE_STRUCTURE] "user1" 42
      = .ok ({ sampleDraftApp with
                status := .PENDING
                submittedAt := some 42
                snapshotFullName := some cProfileContext.record.data.fullName
                snapshotDateOfBirth := some cProfileContext.record.data.dateOfBirth
                snapshotGender := some cProfileContext.record.data.gender
                snapshotNationalId := cProfileContext.record.data.nationalIdNumber
                snapshotPassportNumber := cProfileContext.record.data.passportNumber
                snapshotInstitution := some cProfileContext.record.data.institutionName
                snapshotProgramme := some cProfileContext.record.data.programmeOrCourse
                snapshotCounty := some cProfileContext.countyName
                snapshotSubCounty := some cProfileContext.subCountyName
                snapshotWard := some cProfileContext.wardName
                snapshotPhone := cProfileContext.userPhone
                snapshotEmail := some cProfileContext.userEmail
                snapshotEducationLevel := some cProfileContext.record.data.institutionType },
             { applicationId := sampleDraftApp.id, previousStatus := some .DRAFT
               newStatus := .PENDING, changedBy := "user1"
               reason := some "Application submitted for review"
               autoGenerated := true })
    ∧ updateApplicationStatusCore (appWith 2 .PENDING) "admin1" .UNDER_REVIEW none none 7
      = .ok ({ appWith 2 .PENDING with
                status := .UNDER_REVIEW
                reviewedAt := some 7
                reviewedBy := some "admin1" },
             { applicationId := (appWith 2 .PENDING).id
               previousStatus := some (appWith 2 .PENDING).status
               newStatus := .UNDER_REVIEW, changedBy := "admin1"
               reason := none, autoGenerated := false }) :=
  ⟨C2_snapshot_paths.1 cProfileContext sampleDraftApp [.FEE_STRUCTURE] "user1" 42
      (by decide) (by decide),
   C2_snapshot_paths.2.1 (appWith 2 .PENDING) "admin1" .UNDER_REVIEW none none 7
      (by decide) (by decide)⟩

/-- C3: submitting a DRAFT application that has no FEE_STRUCTURE
ApplicationDocument fails with the missing-required-document validation
error, and nothing is committed: the stored row (status, snapshot fields,
submittedAt) and the status history are exactly as before. -/
theorem C3_submit_requires_fee_document
    (ctx : ProfileContext) (a : Application) (docs : List AppDocType)
    (history : List HistoryRow) (userId : String) (now : Nat)
    (hdraft : a.status = .DRAFT)
    (hnofee : docs.any (fun t => t == AppDocType.FEE_STRUCTURE) = false) :
    submitApplication (some ctx) (some a) docs userId now
      = .error .missingFeeDocument
    ∧ applySubmitResult a history (submitApplication (some ctx) (some a) docs userId now)
      = (a, history) := by
  have h1 : submitApplication (some ctx) (some a) docs userId now
      = .error .missingFeeDocument := by
    simp [submitApplication, hdraft, hnofee]
  exact ⟨h1, by rw [h1]; rfl⟩

/-- Witness for C3: a concrete draft with only a support letter uploaded is
rejected and the stored state is unchanged. -/
theorem C3_submit_requires_fee_document_witness :
    submitApplication (some cProfileContext) (some sampleDraftApp)
        [.SUPPORT_LETTER] "user1" 42
      = .error .missingFeeDocument
    ∧ applySubmitResult sampleDraftApp []
        (submitApplication (some cProfileContext) (some sampleDraftApp)
          [.SUPPORT_LETTER] "user1" 42)
      = (sampleDraftApp, []) :=
  C3_submit_requires_fee_document cProfileContext sampleDraftApp
    [.SUPPORT_LETTER] [] "user1" 42 (by decide) (by decide)

/-- C4: for the DISBURSED target, a positive disbursedAmount is required: a
present non-positive amount is rejected by the request schema and an absent
amount is rejected by the service, both before any state change (the result
is an error, so nothing is committed); on success the new status, the
disbursement fields and the single appended history row are returned
together as the one transactional result. -/
theorem C4_disbursement_guard
    (app : Application) (history : List HistoryRow) (adminId : String)
    (notes : Option String) (disb : Option Int) (now : Nat) :
    (∀ v : Int, disb = some v → v ≤ 0 →
      updateApplicationStatusEndpoint app history adminId .DISBURSED notes disb now
        = .error .schemaValidation)
    ∧ (disb = none → ∀ res,
        updateApplicationStatusEndpoint app history adminId .DISBURSED notes disb now
          ≠ .ok res)
    ∧ (disb = none → app.status = .APPROVED →
        updateApplicationStatusEndpoint app history adminId .DISBURSED notes disb now
          = .error .missingDisbursedAmount)
    ∧ (∀ app2 hist2,
        updateApplicationStatusEndpoint app history adminId .DISBURSED notes disb now
          = .ok (app2, hist2) →
        ∃ v : Int, disb = some v ∧ 0 < v
          ∧ app2.status = .DISBURSED
          ∧ app2.disbursedAmount = some v
          ∧ app2.disbursedAt = some now
          ∧ app2.disbursementNotes = notes
          ∧ hist2 = history ++
              [{ applicationId := app.id
                 previousStatus := some app.status
                 newStatus := .DISBURSED
                 changedBy := adminId
                 reason := notes
                 autoGenerated := false }]) := by
  refine ⟨?_, ?_, ?_, ?_⟩
  · intro v hv hle
    subst hv
    have hfalse : schemaAcceptsDisbursedAmount (some v) = false := by
      simp [schemaAcceptsDisbursedAmount]
      omega
    simp [updateApplicationStatusEndpoint, hfalse]
  · intro hnone res
    subst hnone
    cases hv : isValidStatusTransition app.status .DISBURSED with
    | false =>
      simp [updateApplicationStatusEndpoint, schemaAcceptsDisbursedAmount,
        updateApplicationStatusCore, hv]
    | true =>
      simp [updateApplicationStatusEndpoint, schemaAcceptsDisbursedAmount,
        updateApplicationStatusCore, hv, disbursedAmountFalsy]
  · intro hnone happ
    subst hnone
    have hv : isValidStatusTransition app.status .DISBURSED = true := by
      rw [happ]
      decide
    simp [updateApplicationStatusEndpoint, schemaAcceptsDisbursedAmount,
      updateApplicationStatusCore, hv, disbursedAmountFalsy]
  · intro app2 hist2 hok
    cases disb with
    | none =>
      exfalso
      cases hv : isValidStatusTransition app.status .DISBURSED with
      | false =>
        simp [updateApplicationStatusEndpoint, schemaAcceptsDisbursedAmount,
          updateApplicationStatusCore, hv] at hok
      | true =>
        simp [updateApplicationStatusEndpoint, schemaAcceptsDisbursedAmount,
          updateApplicationStatusCore, hv, disbursedAmountFalsy] at hok
    | some v =>
      by_cases hpos : (0 : Int) < v
      · cases hv : isValidStatusTransition app.status .DISBURSED with
        | false =>
          exfalso
          simp [updateApplicationStatusEndpoint, schemaAcceptsDisbursedAmount,
            hpos, updateApplicationStatusCore, hv] at hok
        | true =>
          have hfneq : disbursedAmountFalsy (some v) = false := by
            simp [disbursedAmountFalsy]
            omega
          simp [updateApplicationStatusEndpoint, schemaAcceptsDisbursedAmount,
            hpos, updateApplicationStatusCore, hv, hfneq] at hok
          obtain ⟨ha, hh⟩ := hok
          subst ha
          subst hh
          exact ⟨v, rfl, hpos, rfl, rfl, rfl, rfl, rfl⟩
      · exfalso
        have hfalse : schemaAcceptsDisbursedAmount (some v) = false := by
          simp [schemaAcceptsDisbursedAmount]
          omega
        simp [updateApplicationStatusEndpoint, hfalse] at hok

/-- Witness for C4: an APPROVED application with no amount fails with the
missing-amount error; a zero amount fails at the schema; a positive amount
disburses atomically. -/
theorem C4_disbursement_guard_witness :
    updateApplicationStatusEndpoint (appWith 1 .APPROVED) [] "admin1" .DISBURSED none none 3
      = .error .missingDisbursedAmount
    ∧ updateApplicationStatusEndpoint (appWith 1 .APPROVED) [] "admin1" .DISBURSED none (some 0) 3
      = .error .schemaValidation :=
  ⟨(C4_disbursement_guard (appWith 1 .APPROVED) [] "admin1" none none 3).2.2.1
      rfl (by decide),
   (C4_disbursement_guard (appWith 1 .APPROVED) [] "admin1" none (some 0) 3).1
      0 rfl (by decide)⟩

/-- Loop invariant of the bulkUpdate fold: every id adds exactly one to
updated or to failed, and the error list grows in lockstep with failed. -/
theorem bulk_foldl_invariant (adminId : String) (newStatus : AppStatus)
    (note : Option String) (now : Nat) (ids : List Nat) :
    ∀ acc : BulkAcc,
      ((ids.foldl (bulkStep adminId newStatus note now) acc).updated
          + (ids.foldl (bulkStep adminId newStatus note now) acc).failed
        = acc.updated + acc.failed + ids.length)
      ∧ ((ids.foldl (bulkStep adminId newStatus note now) acc).errors.length
          + acc.failed
        = acc.errors.length
          + (ids.foldl (bulkStep adminId newStatus note now) acc).failed) := by
  induction ids with
  | nil =>
    intro acc
    simp
  | cons i rest ih =>
    intro acc
    have h := ih (bulkStep adminId newStatus note now acc i)
    constructor
    · have h1 := h.1
      simp only [List.foldl_cons, List.length_cons]
      rw [h1]
      cases hstep : updateApplicationStatusDb acc.db i adminId newStatus note none now with
      | ok db2 =>
        simp [bulkStep, hstep]
        omega
      | error e =>
        simp [bulkStep, hstep]
        omega
    · have h2 := h.2
      simp only [List.foldl_cons]
      cases hstep : updateApplicationStatusDb acc.db i adminId newStatus note none now with
      | ok db2 =>
        simp only [bulkStep, hstep] at h2 ⊢
        omega
      | error e =>
        simp only [bulkStep, hstep] at h2 ⊢
        simp at h2 ⊢
        omega

/-- C5: bulkUpdate processes every id sequentially through the
single-application transition operation and never aborts early: updated +
failed always equals the number of ids, the error list has one entry per
failed id, and success holds iff failed = 0.  On the spec's mixed 3-id batch
(two PENDING, one DRAFT, target UNDER_REVIEW) it reports updated = 2,
failed = 1, the failed id's error, and the two valid rows remain durably
transitioned. -/
theorem C5_bulk_update (db : AdminDb) (adminId : String) (ids : List Nat)
    (newStatus : AppStatus) (note : Option String) (now : Nat) :
    ((bulkUpdate db adminId ids newStatus note now).1.updated
      + (bulkUpdate db adminId ids newStatus note now).1.failed = ids.length)
    ∧ ((bulkUpdate db adminId ids newStatus note now).1.success
        = ((bulkUpdate db adminId ids newStatus note now).1.failed == 0))
    ∧ ((bulkUpdate db adminId ids newStatus note now).1.errors.length
        = (bulkUpdate db adminId ids newStatus note now).1.failed)
    ∧ cBulkRun.1.updated = 2
    ∧ cBulkRun.1.failed = 1
    ∧ cBulkRun.1.success = false
    ∧ cBulkRun.1.errors = [(3, .invalidTransition .DRAFT .UNDER_REVIEW)]
    ∧ cBulkRun.2.applications.map (fun a => a.status)
        = [.UNDER_REVIEW, .UNDER_REVIEW, .DRAFT]
    ∧ cBulkRun.2.applications.map (fun a => a.reviewedBy)
        = [some "admin1", some "admin1", none]
    ∧ cBulkRun.2.history.length = 2 := by
  have h := bulk_foldl_invariant adminId newStatus note now ids
    { updated := 0, failed := 0, errors := [], db := db }
  refine ⟨?_, rfl, ?_, by decide, by decide, by decide, by decide,
    by decide, by decide, by decide⟩
  · simpa [bulkUpdate] using h.1
  · have h2 := h.2
    simp only [bulkUpdate]
    simp at h2
    omega

/-- Replacing every key-matching row by a row that itself matches the key
preserves the number of key-matching rows. -/
theorem upsert_map_filter_length (a : Nat) (r : String) (row : ReviewScore)
    (hrow : scoreKeyMatches a r row = true) (store : List ReviewScore) :
    ((store.map (fun x => if scoreKeyMatches a r x then row else x)).filter
        (scoreKeyMatches a r)).length
      = (store.filter (scoreKeyMatches a r)).length := by
  induction store with
  | nil => rfl
  | cons x rest ih =>
    by_cases hx : scoreKeyMatches a r x = true
    · simp [List.filter_cons, hx, hrow, ih]
    · simp [List.filter_cons, hx, ih]

/-- After an upsert, exactly one row matches the (applicationId, reviewerId)
key, provided the uniqueness invariant held before. -/
theorem upsert_key_count (a : Nat) (r : String) (s : ScoreInput)
    (store : List ReviewScore)
    (h : (store.filter (scoreKeyMatches a r)).length ≤ 1) :
    ((upsertReviewScore store a r s).filter (scoreKeyMatches a r)).length = 1 := by
  have hrow : scoreKeyMatches a r (mkReviewScoreRow a r s) = true := by
    simp [scoreKeyMatches, mkReviewScoreRow]
  by_cases hany : store.any (scoreKeyMatches a r) = true
  · have hpos : 0 < (store.filter (scoreKeyMatches a r)).length := by
      rcases List.any_eq_true.mp hany with ⟨x, hx, hxk⟩
      exact List.length_pos_of_mem (List.mem_filter.mpr ⟨hx, hxk⟩)
    rw [show upsertReviewScore store a r s
        = store.map (fun x => if scoreKeyMatches a r x then mkReviewScoreRow a r s else x)
        from by simp [upsertReviewScore, hany]]
    rw [upsert_map_filter_length a r _ hrow store]
    omega
  · have hnil : store.filter (scoreKeyMatches a r) = [] := by
      rw [List.filter_eq_nil_iff]
      intro x hx
      by_contra hc
      exact hany (List.any_eq_true.mpr
        ⟨x, hx, by revert hc; cases scoreKeyMatches a r x <;> simp⟩)
    rw [show upsertReviewScore store a r s = store ++ [mkReviewScoreRow a r s]
        from by simp [upsertReviewScore, hany]]
    simp [List.filter_append, hnil, hrow]

/-- Every key-matching row of an upsert result is the freshly built row. -/
theorem upsert_key_mem (a : Nat) (r : String) (s : ScoreInput)
    (store : List ReviewScore) (x : ReviewScore)
    (hx : x ∈ upsertReviewScore store a r s)
    (hk : scoreKeyMatches a r x = true) :
    x = mkReviewScoreRow a r s := by
  by_cases hany : store.any (scoreKeyMatches a r) = true
  · simp only [upsertReviewScore, hany, if_true, List.mem_map] at hx
    rcases hx with ⟨y, hy, hxy⟩
    by_cases hky : scoreKeyMatches a r y = true
    · rw [← hxy]
      simp [hky]
    · rw [← hxy] at hk
      simp [hky] at hk
  · simp only [upsertReviewScore, hany, if_false, List.mem_append,
      List.mem_singleton, Bool.false_eq_true] at hx
    rcases hx with hx | hx
    · exact absurd (List.any_eq_true.mpr ⟨x, hx, hk⟩) hany
    · exact hx

/-- C6: the stored overallScore is the server-computed unweighted mean of
the four sub-scores (the schema strips any client-sent aggregate), and a
second submission by the same reviewer for the same application replaces the
prior row, leaving exactly one ReviewScore per (application, reviewer)
key. -/
theorem C6_score_upsert (store : List ReviewScore) (a : Nat) (r : String)
    (b1 b2 : RawScoreBody) (s1 s2 : ScoreInput)
    (h1 : parseScoreBody b1 = some s1)
    (h2 : parseScoreBody b2 = some s2)
    (hkey : (store.filter (scoreKeyMatches a r)).length ≤ 1) :
    (∀ q, parseScoreBody { b2 with overallScore := q } = some s2)
    ∧ scoreApplication true store a r s1 = .ok (upsertReviewScore store a r s1)
    ∧ scoreApplication true (upsertReviewScore store a r s1) a r s2
        = .ok (upsertReviewScore (upsertReviewScore store a r s1) a r s2)
    ∧ ((upsertReviewScore (upsertReviewScore store a r s1) a r s2).filter
        (scoreKeyMatches a r)).length = 1
    ∧ (∀ x ∈ upsertReviewScore (upsertReviewScore store a r s1) a r s2,
        scoreKeyMatches a r x = true →
        x.overallScore
          = ((s2.financialNeed : ℚ) + s2.academicMerit + s2.communityImpact
              + s2.vulnerability) / 4
        ∧ x.financialNeed = s2.financialNeed
        ∧ x.academicMerit = s2.academicMerit
        ∧ x.communityImpact = s2.communityImpact
        ∧ x.vulnerability = s2.vulnerability
        ∧ x.comments = s2.comments) := by
  refine ⟨?_, rfl, rfl, ?_, ?_⟩
  · intro q
    rw [← h2]
    rfl
  · exact upsert_key_count a r s2 _
      (le_of_eq (upsert_key_count a r s1 store hkey))
  · intro x hx hk
    rw [upsert_key_mem a r s2 _ x hx hk]
    exact ⟨rfl, rfl, rfl, rfl, rfl, rfl⟩

/-- Witness for C6: reviewer rev1 scores application 1 twice on an empty
score table; the table ends with exactly one row for the pair. -/
theorem C6_score_upsert_witness :
    scoreApplication true [] 1 "rev1" cScore1
      = .ok (upsertReviewScore [] 1 "rev1" cScore1)
    ∧ ((upsertReviewScore (upsertReviewScore [] 1 "rev1" cScore1) 1 "rev1" cScore2).filter
        (scoreKeyMatches 1 "rev1")).length = 1 :=
  ⟨(C6_score_upsert [] 1 "rev1" cRawScore1 cRawScore2 cScore1 cScore2
      (by decide) (by decide) (by decide)).2.1,
   (C6_score_upsert [] 1 "rev1" cRawScore1 cRawScore2 cScore1 cScore2
      (by decide) (by decide) (by decide)).2.2.2.1⟩

/-- The evaluator reads only the profile data and documents, never the
cached flag. -/
theorem getProfileCompleteness_flag (p : StudentProfileRecord) (b : Bool) :
    getProfileCompleteness (some { p with isComplete := b })
      = getProfileCompleteness (some p) := rfl

/-- C7 counterexample: createProfile on a payload with every required scalar
field and a national id persists isComplete = true although no document was
ever uploaded, while the Profile Completeness Evaluator reports
isComplete = false with both required documents missing — so after this
profile mutation the cached flag does not equal the evaluator's result. -/
theorem C7_counterexample :
    createProfile none false false cProfileData = .ok cNoDocProfile
    ∧ cNoDocProfile.isComplete = true
    ∧ (getProfileCompleteness (some cNoDocProfile)).isComplete = false
    ∧ (getProfileCompleteness (some cNoDocProfile)).missingDocuments
      = [.NATIONAL_ID, .ADMISSION_LETTER]
    ∧ (getProfileCompleteness (some cNoDocProfile)).missingFields = [] :=
  ⟨rfl, rfl, by decide, by decide, by decide⟩

/-- C7 amended: only the document mutations that call the completeness
updater keep the cached flag equal to the evaluator — the first upload of a
document type and a delete do; createProfile and updateProfile instead
persist the scalar-fields-only check (which ignores required documents and
so can disagree with the evaluator), and replacing an existing document of
the same type does not recompute the flag at all. -/
theorem C7_cached_flag (p : StudentProfileRecord) :
    (∀ t newId f,
      p.documents.find? (fun doc => doc.documentType == t) = none →
      (uploadProfileDocument p t newId f).isComplete
        = (getProfileCompleteness (some (uploadProfileDocument p t newId f))).isComplete)
    ∧ (∀ t newId f doc,
      p.documents.find? (fun doc2 => doc2.documentType == t) = some doc →
      (uploadProfileDocument p t newId f).isComplete = p.isComplete)
    ∧ (∀ docId linked p2,
      deleteProfileDocument p docId linked = .ok p2 →
      p2.isComplete = (getProfileCompleteness (some p2)).isComplete)
    ∧ (∀ existing nt pt d p2,
      createProfile existing nt pt d = .ok p2 →
      p2.isComplete = checkProfileComplete d)
    ∧ (∀ apps nt pt u p2,
      updateProfile p apps nt pt u = .ok p2 →
      p2.isComplete = checkProfileComplete (mergeProfileData p.data u)) := by
  refine ⟨?_, ?_, ?_, ?_, ?_⟩
  · intro t newId f hfind
    simp [uploadProfileDocument, hfind, updateProfileCompleteness]
    rfl
  · intro t newId f doc hfind
    simp [uploadProfileDocument, hfind]
  · intro docId linked p2 h
    cases hfind : p.documents.find? (fun doc => doc.id == docId) with
    | none => simp [deleteProfileDocument, hfind] at h
    | some doc =>
      by_cases hl : linked.any (fun s => s == AppStatus.PENDING || s == AppStatus.UNDER_REVIEW) = true
      · simp [deleteProfileDocument, hfind, hl] at h
      · simp [deleteProfileDocument, hfind, hl] at h
        rw [← h]
        rfl
  · intro existing nt pt d p2 h
    unfold createProfile at h
    split at h
    · exact Except.noConfusion h
    · split at h
      · exact Except.noConfusion h
      · split at h
        · exact Except.noConfusion h
        · injection h with h2
          rw [← h2]
  · intro apps nt pt u p2 h
    unfold updateProfile at h
    split at h
    · exact Except.noConfusion h
    · split at h
      · exact Except.noConfusion h
      · split at h
        · exact Except.noConfusion h
        · injection h with h2
          rw [← h2]

/-- Witness for C7 amended: uploading the first NATIONAL_ID document to the
document-less profile leaves the cached flag equal to the evaluator result,
and the created profile's flag is the scalar-only check. -/
theorem C7_cached_flag_witness :
    (uploadProfileDocument cNoDocProfile .NATIONAL_ID 5 cFileMeta).isComplete
      = (getProfileCompleteness
          (some (uploadProfileDocument cNoDocProfile .NATIONAL_ID 5 cFileMeta))).isComplete
    ∧ cNoDocProfile.isComplete = checkProfileComplete cProfileData :=
  ⟨(C7_cached_flag cNoDocProfile).1 .NATIONAL_ID 5 cFileMeta (by decide),
   (C7_cached_flag cNoDocProfile).2.2.2.1 none false false cProfileData
      cNoDocProfile rfl⟩

/-- C8 counterexample: with a complete profile, no applications of the
student, and an empty ApplicationPeriod table — so no active period covers
any instant — checkEligibility still returns canApply = true and a draft can
be created: the application window is never consulted. -/
theorem C8_counterexample :
    (checkEligibility (some cCompleteProfile) []).canApply = true
    ∧ activePeriodCovers [] 1000 = false
    ∧ exceptOk (createDraft (some cCompleteProfile) 1 [] 0 10 "user1" cDraftData)
      = true := by
  exact ⟨by decide, by decide, rfl⟩

/-- C8 amended: checkEligibility depends only on the profile lookup and the
student's applications — canApply is true exactly when the profile exists,
the evaluator reports it complete, and no application of the student is in
DRAFT/PENDING/UNDER_REVIEW; the application window (an active
ApplicationPeriod covering today) is not part of the check on any path. -/
theorem C8_eligibility (profile : Option StudentProfileRecord)
    (apps : List Application) :
    (checkEligibility profile apps).canApply = true ↔
      ((∃ p, profile = some p
          ∧ (getProfileCompleteness (some p)).isComplete = true)
        ∧ apps.find? isActiveStatusApp = none) := by
  cases profile with
  | none => simp [checkEligibility]
  | some p =>
    by_cases hc : (getProfileCompleteness (some p)).isComplete = true
    · cases hfind : apps.find? isActiveStatusApp with
      | none => simp [checkEligibility, hc, hfind]
      | some a2 => simp [checkEligibility, hc, hfind]
    · simp [checkEligibility, hc]

/-- One element through the deactivate-then-activate pass. -/
theorem activate_deactivate_step (pid : Nat) (p : ApplicationPeriod) :
    (fun q => if q.id == pid then { q with isActive := true } else q)
      ((fun q => if q.isActive then { q with isActive := false } else q) p)
      = if p.id == pid then { p with isActive := true }
        else { p with isActive := false } := by
  cases p with
  | mk i ay t d s e act =>
    cases act with
    | false =>
      by_cases hid : (i == pid) = true
      · simp [hid]
      · simp [hid]
    | true =>
      by_cases hid : (i == pid) = true
      · simp [hid]
      · simp [hid]

/-- The two activation steps amount to one elementwise pass: the target row
becomes active, every other row inactive. -/
theorem activate_deactivate_map (l : List ApplicationPeriod) (pid : Nat) :
    activateTargetPeriod (deactivateAllPeriods l) pid
      = l.map (fun p => if p.id == pid
          then { p with isActive := true } else { p with isActive := false }) := by
  unfold activateTargetPeriod deactivateAllPeriods
  rw [List.map_map]
  have hfun : ((fun q : ApplicationPeriod =>
        if q.id == pid then { q with isActive := true } else q) ∘
      (fun q : ApplicationPeriod =>
        if q.isActive then { q with isActive := false } else q))
      = (fun p : ApplicationPeriod => if p.id == pid
          then { p with isActive := true } else { p with isActive := false }) := by
    funext p
    exact activate_deactivate_step pid p
  rw [hfun]

/-- Number of active rows after the two activation steps, keyed by id. -/
theorem activate_deactivate_filter (l : List ApplicationPeriod) (pid : Nat) :
    ((activateTargetPeriod (deactivateAllPeriods l) pid).filter
        (fun p => p.isActive)).map (fun p => p.id)
      = (l.filter (fun p => p.id == pid)).map (fun p => p.id) := by
  rw [activate_deactivate_map]
  induction l with
  | nil => rfl
  | cons x rest ih =>
    by_cases hid : (x.id == pid) = true
    · simp only [List.map_cons, List.filter_cons, hid, if_true]
      simpa using ih
    · simp only [List.map_cons, List.filter_cons, hid, Bool.false_eq_true, if_false]
      simpa using ih

/-- With pairwise-distinct ids (the primary key) and the target present,
filtering on the target id yields exactly that one id. -/
theorem filter_id_nodup (l : List ApplicationPeriod) (pid : Nat)
    (hnd : (l.map (fun p => p.id)).Nodup)
    (hfound : (l.find? (fun p => p.id == pid)).isSome = true) :
    (l.filter (fun p => p.id == pid)).map (fun p => p.id) = [pid] := by
  induction l with
  | nil => simp at hfound
  | cons x rest ih =>
    rw [List.map_cons, List.nodup_cons] at hnd
    obtain ⟨hnotin, hnd2⟩ := hnd
    by_cases hid : (x.id == pid) = true
    · have hxid : x.id = pid := by simpa using hid
      have hrest : rest.filter (fun p => p.id == pid) = [] := by
        rw [List.filter_eq_nil_iff]
        intro y hy hyk
        apply hnotin
        rw [List.mem_map]
        refine ⟨y, hy, ?_⟩
        have hy2 : y.id = pid := by simpa using hyk
        rw [hy2, hxid]
      simp [List.filter_cons, hid, hrest, hxid]
    · have hidf : (x.id == pid) = false := by
        simpa using hid
      simp only [List.find?_cons, hidf] at hfound
      simp only [List.filter_cons, hidf, Bool.false_eq_true, if_false]
      exact ih hnd2 hfound

/-- countActivePeriods is invariant under maps that preserve isActive. -/
theorem countActive_map (f : ApplicationPeriod → ApplicationPeriod)
    (hf : ∀ p, (f p).isActive = p.isActive) (l : List ApplicationPeriod) :
    countActivePeriods (l.map f) = countActivePeriods l := by
  induction l with
  | nil => rfl
  | cons x rest ih =>
    by_cases hx : x.isActive = true
    · simp [countActivePeriods, List.filter_cons, hf, hx] at ih ⊢
      exact ih
    · simp [countActivePeriods, List.filter_cons, hf, hx] at ih ⊢
      exact ih

/-- A sub-filter cannot raise the active count. -/
theorem countActive_filter_le (q : ApplicationPeriod → Bool)
    (l : List ApplicationPeriod) :
    countActivePeriods (l.filter q) ≤ countActivePeriods l := by
  induction l with
  | nil => exact Nat.le_refl 0
  | cons x rest ih =>
    by_cases hq : q x = true
    · by_cases hx : x.isActive = true
      · simpa [countActivePeriods, List.filter_cons, hq, hx] using ih
      · simpa [countActivePeriods, List.filter_cons, hq, hx] using ih
    · by_cases hx : x.isActive = true
      · simp only [countActivePeriods, List.filter_cons, hq, hx] at ih ⊢
        simp only [if_false, Bool.false_eq_true, if_true]
        calc (List.filter (fun p => p.isActive) (rest.filter q)).length
            ≤ (rest.filter (fun p => p.isActive)).length := ih
          _ ≤ (rest.filter (fun p => p.isActive)).length + 1 := Nat.le_succ _
      · simpa [countActivePeriods, List.filter_cons, hq, hx] using ih

/-- C9: every period operation preserves "at most one active period" —
create adds an inactive row, update never touches isActive, delete refuses
an active row — and a successful activation (ids being a primary key are
distinct) leaves exactly one active period, the target: never zero, never
both, since both steps are one atomic transaction in the embedding, as in
the source. -/
theorem C9_single_active_period :
    (∀ periods newId ay t dsc s e,
      countActivePeriods (createApplicationPeriod periods newId ay t dsc s e)
        = countActivePeriods periods)
    ∧ (∀ periods pid ay t dsc s e ps2,
      updateApplicationPeriod periods pid ay t dsc s e = .ok ps2 →
      countActivePeriods ps2 = countActivePeriods periods)
    ∧ (∀ periods pid ps2,
      deleteApplicationPeriod periods pid = .ok ps2 →
      countActivePeriods ps2 ≤ countActivePeriods periods)
    ∧ (∀ periods pid ps2,
      (periods.map (fun p => p.id)).Nodup →
      activateApplicationPeriod periods pid = .ok ps2 →
      (ps2.filter (fun p => p.isActive)).map (fun p => p.id) = [pid]
        ∧ countActivePeriods ps2 = 1) := by
  refine ⟨?_, ?_, ?_, ?_⟩
  · intro periods newId ay t dsc s e
    simp [createApplicationPeriod, countActivePeriods, List.filter_append]
  · intro periods pid ay t dsc s e ps2 h
    unfold updateApplicationPeriod at h
    split at h
    · injection h with h2
      rw [← h2]
      exact countActive_map _ (fun p => by split <;> rfl) periods
    · exact Except.noConfusion h
  · intro periods pid ps2 h
    unfold deleteApplicationPeriod at h
    split at h
    · exact Except.noConfusion h
    · split at h
      · exact Except.noConfusion h
      · injection h with h2
        rw [← h2]
        exact countActive_filter_le _ periods
  · intro periods pid ps2 hnd h
    unfold activateApplicationPeriod at h
    split at h
    next hcond =>
      injection h with h2
      have hmain : (ps2.filter (fun p => p.isActive)).map (fun p => p.id) = [pid] := by
        rw [← h2, activate_deactivate_filter]
        exact filter_id_nodup periods pid hnd hcond
      refine ⟨hmain, ?_⟩
      have hlen := congrArg List.length hmain
      simpa [countActivePeriods] using hlen
    next hcond => exact Except.noConfusion h

/-- Witness for C9: activating period B (id 2) while period A (id 1) is
active leaves exactly B active. -/
theorem C9_single_active_period_witness :
    ((activateTargetPeriod (deactivateAllPeriods [cPeriodA, cPeriodB]) 2).filter
        (fun p => p.isActive)).map (fun p => p.id) = [2]
    ∧ countActivePeriods
        (activateTargetPeriod (deactivateAllPeriods [cPeriodA, cPeriodB]) 2) = 1 :=
  C9_single_active_period.2.2.2 [cPeriodA, cPeriodB] 2 _ (by decide) rfl

/-- C10: updateDraft on a DRAFT application whose payload sets
outstandingFeesBalance to exactly 0 silently keeps the previous balance
(the value is gated by a JavaScript truthiness check) while every other
supplied working field is updated; consequently a zero balance can never be
newly recorded through this operation. -/
theorem C10_zero_balance_discarded (p : StudentProfileRecord)
    (a : Application) (u : UpdateDraftData)
    (hdraft : a.status = .DRAFT)
    (hzero : u.outstandingFeesBalance = some 0) :
    updateDraft (some p) (some a) u = .ok (applyUpdateDraft a u)
    ∧ (applyUpdateDraft a u).outstandingFeesBalance = a.outstandingFeesBalance
    ∧ (∀ s, u.hardshipNarrative = some s →
        (applyUpdateDraft a u).hardshipNarrative = s)
    ∧ (∀ s, u.currentYearOfStudy = some s →
        (applyUpdateDraft a u).currentYearOfStudy = s)
    ∧ (∀ s, u.modeOfSponsorship = some s →
        (applyUpdateDraft a u).modeOfSponsorship = s)
    ∧ (∀ s, u.howSupportingEducation = some s →
        (applyUpdateDraft a u).howSupportingEducation = s)
    ∧ (∀ s, u.currentFeeSituation = some s →
        (applyUpdateDraft a u).currentFeeSituation = some s)
    ∧ (∀ s, u.isFeesAffectingStudies = some s →
        (applyUpdateDraft a u).isFeesAffectingStudies = s)
    ∧ (∀ s, u.hasBeenSentHome = some s →
        (applyUpdateDraft a u).hasBeenSentHome = s)
    ∧ (∀ s, u.hasMissedExamsOrClasses = some s →
        (applyUpdateDraft a u).hasMissedExamsOrClasses = s)
    ∧ (∀ s, u.difficultiesFaced = some s →
        (applyUpdateDraft a u).difficultiesFaced = s)
    ∧ (∀ s, u.goalForAcademicYear = some s →
        (applyUpdateDraft a u).goalForAcademicYear = some s)
    ∧ (∀ s, u.referralSource = some s →
        (applyUpdateDraft a u).referralSource = some s)
    ∧ (∀ s, u.gpa = some s → (applyUpdateDraft a u).gpa = some s)
    ∧ (∀ s, u.expectedGraduationDate = some s →
        (applyUpdateDraft a u).expectedGraduationDate = some s)
    ∧ (∀ s, u.totalAnnualFeeAmount = some s →
        (applyUpdateDraft a u).totalAnnualFeeAmount = some s)
    ∧ (∀ s, u.remainingSemesters = some s →
        (applyUpdateDraft a u).remainingSemesters = some s)
    ∧ (∀ s, u.appliedToOtherScholarships = some s →
        (applyUpdateDraft a u).appliedToOtherScholarships = some s)
    ∧ (∀ s, u.otherScholarshipsDetails = some s →
        (applyUpdateDraft a u).otherScholarshipsDetails = some s)
    ∧ (∀ s, u.communityInvolvement = some s →
        (applyUpdateDraft a u).communityInvolvement = some s)
    ∧ (∀ s, u.careerAspirations = some s →
        (applyUpdateDraft a u).careerAspirations = some s)
    ∧ (∀ s, u.givingBackPlan = some s →
        (applyUpdateDraft a u).givingBackPlan = some s)
    ∧ (∀ u2 : UpdateDraftData,
        (applyUpdateDraft a u2).outstandingFeesBalance = 0 →
        a.outstandingFeesBalance = 0) := by
  refine ⟨by simp [updateDraft, hdraft], by simp [applyUpdateDraft, hzero],
    ?_, ?_, ?_, ?_, ?_, ?_, ?_, ?_, ?_, ?_, ?_, ?_, ?_, ?_, ?_, ?_, ?_, ?_,
    ?_, ?_, ?_⟩
  case _ => intro s hs; simp [applyUpdateDraft, hs]
  case _ => intro s hs; simp [applyUpdateDraft, hs]
  case _ => intro s hs; simp [applyUpdateDraft, hs]
  case _ => intro s hs; simp [applyUpdateDraft, hs]
  case _ => intro s hs; simp [applyUpdateDraft, hs]
  case _ => intro s hs; simp [applyUpdateDraft, hs]
  case _ => intro s hs; simp [applyUpdateDraft, hs]
  case _ => intro s hs; simp [applyUpdateDraft, hs]
  case _ => intro s hs; simp [applyUpdateDraft, hs]
  case _ => intro s hs; simp [applyUpdateDraft, hs]
  case _ => intro s hs; simp [applyUpdateDraft, hs]
  case _ => intro s hs; simp [applyUpdateDraft, hs]
  case _ => intro s hs; simp [applyUpdateDraft, hs]
  case _ => intro s hs; simp [applyUpdateDraft, hs]
  case _ => intro s hs; simp [applyUpdateDraft, hs]
  case _ => intro s hs; simp [applyUpdateDraft, hs]
  case _ => intro s hs; simp [applyUpdateDraft, hs]
  case _ => intro s hs; simp [applyUpdateDraft, hs]
  case _ => intro s hs; simp [applyUpdateDraft, hs]
  case _ => intro s hs; simp [applyUpdateDraft, hs]
  case _ =>
    intro u2 h
    cases hcase : u2.outstandingFeesBalance with
    | none => simpa [applyUpdateDraft, hcase] using h
    | some v =>
      by_cases hv : (v == 0) = true
      · simpa [applyUpdateDraft, hcase, hv] using h
      · rw [show (applyUpdateDraft a u2).outstandingFeesBalance = v from by
          simp [applyUpdateDraft, hcase, hv]] at h
        exact absurd (by simpa using h) (by simpa using hv)

/-- Witness for C10: a payload with balance 0 and a new narrative updates
the narrative but keeps the stored balance of 15000. -/
theorem C10_zero_balance_discarded_witness :
    updateDraft (some cNoDocProfile) (some sampleDraftApp) cZeroUpdate
      = .ok (applyUpdateDraft sampleDraftApp cZeroUpdate)
    ∧ (applyUpdateDraft sampleDraftApp cZeroUpdate).outstandingFeesBalance
      = sampleDraftApp.outstandingFeesBalance
    ∧ (applyUpdateDraft sampleDraftApp cZeroUpdate).hardshipNarrative
      = "updated text" :=
  ⟨(C10_zero_balance_discarded cNoDocProfile sampleDraftApp cZeroUpdate
      rfl rfl).1,
   (C10_zero_balance_discarded cNoDocProfile sampleDraftApp cZeroUpdate
      rfl rfl).2.1,
   (C10_zero_balance_discarded cNoDocProfile sampleDraftApp cZeroUpdate
      rfl rfl).2.2.1 "updated text" rfl⟩

end STF
